import Mathlib

/-!
Verification of the GNIRS_PIPELINE orchestration code.

Shallow embedding of the decision logic of five Python modules:
`flux_calibrate.py`, `gnirsExtractSpectra1D.py`, `gnirsCheckData.py`,
`gnirsBaselineCalibration.py` and `write_pdf.py`.  Pure numeric code is
modelled over `ℚ` (Python floats are treated as exact rationals for the
decision logic being checked), Python name resolution is modelled by an
explicit environment machine, and fatal exits (`raise SystemExit`) are
modelled by dedicated result constructors.
-/

namespace GnirsPipeline

/-! ## flux_calibrate.py -/

/-- The per-order flux-density scale computed in `flux_calibrate.start`
(lines 186-199).  `stdMagnitude = some mag` models a non-empty magnitude
string (`if stdMagnitudes[i]:` on the string is Python truthiness);
`tenPow x` models the Python float expression `10 ** x`, which this
orchestrator delegates to the numeric runtime.  Returns the scale
`flambda` together with the `absolute_fluxcalib` flag. -/
def flambda (tenPow : ℚ → ℚ) (stdMagnitude : Option ℚ) (zeroMagnitudeFlux : ℚ)
    (stdExptime sciExptime : ℚ) : ℚ × Bool :=
  match stdMagnitude with
  | some mag => (tenPow (-mag / 2.5) * zeroMagnitudeFlux * (stdExptime / sciExptime), true)
  | none => (1 * (stdExptime / sciExptime), false)

/-- The `FUNITS` header value written by `fluxcalib_units_in_headers`
(`flux_calibrate.py` lines 403-416). -/
def fluxcalib_units_in_headers (abs_fluxcal : Bool) : String :=
  if abs_fluxcal then "erg/cm^2/s/A" else "Flambda, relative"

/-- What `flux_calibrate.start` does for one order before computing it
(lines 172-181): the old-output decision.  `oldfiles` is the glob result
for the four declared outputs of the order.  The source tests only the
`overwrite` flag; the glob result is not consulted. -/
inductive OrderCalibAction where
  | recompute (removed : List String)
  | skip
deriving DecidableEq, Repr

/-- Old-output handling for one order in `flux_calibrate.start`
(lines 172-181): `if overwrite: remove oldfiles (then fall through and
compute the order) else: continue (skip the order)`. -/
def orderCalibAction (oldfiles : List String) (overwrite : Bool) : OrderCalibAction :=
  if overwrite then .recompute oldfiles else .skip

/-! ## gnirsCheckData.py : checklist exposure-time handling -/

/-- Distinct elements of a list in order of first occurrence (the keys of
a `collections.Counter` built from the list). -/
def uniqueKeys (l : List ℚ) : List ℚ :=
  l.foldl (fun acc x => if acc.contains x then acc else acc ++ [x]) []

/-- `freq.most_common(1)[0]`: an exposure time with maximal frequency
together with that frequency (earlier first occurrence wins ties). -/
def mostCommonExptime (exptimes : List ℚ) : ℚ × Nat :=
  (uniqueKeys exptimes).foldl
    (fun best k => if exptimes.count k > best.2 then (k, exptimes.count k) else best)
    (0, 0)

/-- `npeak = freq.values().count(val)` (`gnirsCheckData.py` line 193):
the number of frequencies (the values of the Counter) that compare equal
to the exposure-time value `val` under Python numeric equality. -/
def npeakOf (exptimes : List ℚ) (val : ℚ) : Nat :=
  ((uniqueKeys exptimes).map (fun k => exptimes.count k)).countP (fun c => (c : ℚ) == val)

/-- Result of the exposure-time section of `checklist`
(`gnirsCheckData.py` lines 185-209). -/
inductive ExptimeCheck where
  | consistent
  | fatalTie (val : ℚ) (npeak : Nat)
  | pruned (backupMade : Bool) (kept : List String)
deriving DecidableEq, Repr

/-- The exposure-time section of `checklist` (`gnirsCheckData.py` lines
185-209), applied to the listed files with their `EXPTIME` header values:
if all exposure times agree the list is untouched; otherwise take the
most common value `val`, compute `npeak = freq.values().count(val)`,
terminate (`raise SystemExit`) when `npeak > 1`, and otherwise back the
list up to `.bak` and rewrite it keeping exactly the files whose
`EXPTIME == val`. -/
def checklistExptimes (files : List (String × ℚ)) : ExptimeCheck :=
  let exptimes := files.map Prod.snd
  if (uniqueKeys exptimes).length = 1 then
    .consistent
  else
    let val := (mostCommonExptime exptimes).1
    let npeak := npeakOf exptimes val
    if npeak > 1 then
      .fatalTie val npeak
    else
      .pruned true ((files.filter (fun f => f.2 == val)).map Prod.fst)

/-! ## write_pdf.py : science-directory filter and header handling -/

/-- Python truthiness of the raw option value returned by
`config.items("ScienceDirectories")` (a string): `if not process:
continue` skips a directory exactly when its value string is empty
(`write_pdf.py` lines 30-35). -/
def shouldProcess (value : String) : Bool :=
  value != ""

/-- The science directories for which `write_pdf.start` gathers
diagnostics and renders a PDF (lines 30-37). -/
def reportedDirs (dirs : List (String × String)) : List String :=
  (dirs.filter (fun d => shouldProcess d.2)).map Prod.fst

/-- ASCII lowercase of one character (`str.lower` on the config value). -/
def lowerChar (c : Char) : Char :=
  if 'A' ≤ c ∧ c ≤ 'Z' then Char.ofNat (c.toNat + 32) else c

/-- ASCII lowercase of a string. -/
def lowerStr (s : String) : String :=
  String.mk (s.data.map lowerChar)

/-- `ConfigParser.getboolean` semantics (the accessor the other pipeline
stages use for the same section): case-insensitive `1/yes/true/on` and
`0/no/false/off`. -/
def configGetboolean (value : String) : Option Bool :=
  let v := lowerStr value
  if ["1", "yes", "true", "on"].contains v then some true
  else if ["0", "no", "false", "off"].contains v then some false
  else none

/-- A FITS header value as seen by the Python code: a string or a
number (`header[key]` returns either; `write_pdf.py` line 209 branches
on `isinstance(header[key], str)`). -/
inductive HVal where
  | str (s : String)
  | num (q : ℚ)
deriving DecidableEq, Repr

/-- The whitespace characters removed by Python's `str.strip()`. -/
def isPySpace (c : Char) : Bool :=
  c == ' ' || c == '\t' || c == '\n' || c == '\r'

/-- Python's `str.strip()`. -/
def stripStr (s : String) : String :=
  String.mk (((s.data.dropWhile isPySpace).reverse.dropWhile isPySpace).reverse)

/-- `header[key].strip() if isinstance(header[key], str) else
header[key]` (`write_pdf.py` line 209). -/
def stripIfStr : HVal → HVal
  | .str s => .str (stripStr s)
  | .num q => .num q

/-- The header keys read in the `try/except` loop of `imexam`
(`write_pdf.py` lines 206-207). -/
def requiredHeaderKeys : List String :=
  ["GEMPRGID", "AIRMASS", "RA", "DEC", "HA", "AZIMUTH", "PA",
   "OBSERVAT", "RAWIQ", "RAWCC", "RAWWV", "RAWBG", "DATE-OBS"]

/-- The `try/except` header-reading loop of `imexam` (`write_pdf.py`
lines 204-213): each required key is read from the FITS header (string
values stripped); a failed read degrades the field to the `None`
sentinel instead of raising. -/
def imexamHeaderData (header : List (String × HVal)) : List (String × Option HVal) :=
  requiredHeaderKeys.map (fun k => (k, (header.lookup k).map stripIfStr))

/-- The keys for which the `except` branch of the same loop fires and a
warning is logged (`write_pdf.py` lines 210-212). -/
def imexamWarnings (header : List (String × HVal)) : List String :=
  requiredHeaderKeys.filter (fun k => (header.lookup k).isNone)

/-- `data['OBJECT'] = re.sub('[^a-zA-Z0-9]', '', header['OBJECT'])`
(`write_pdf.py` line 214), which sits OUTSIDE the `try/except` loop: a
missing `OBJECT` key raises `KeyError` and a numeric value raises
`TypeError` inside `re.sub`; a string has its non-alphanumeric
characters removed. -/
def objectField (header : List (String × HVal)) : Except String String :=
  match header.lookup "OBJECT" with
  | none => .error "KeyError: OBJECT"
  | some (.num _) => .error "TypeError: expected string or buffer"
  | some (.str s) => .ok (String.mk (s.data.filter fun c => c.isAlpha || c.isDigit))

/-- `imexam`s header handling for one target (`write_pdf.py` lines
204-214): the degrading `try/except` loop over the required keys
followed by the unprotected `OBJECT` read.  `.error` models the
exception propagating out of `imexam`. -/
def imexamStage (header : List (String × HVal)) :
    Except String (List (String × Option HVal)) :=
  match objectField header with
  | .error e => .error e
  | .ok obj => .ok (imexamHeaderData header ++ [("OBJECT", some (.str obj))])

/-- Python's `float(value)` on a gathered field: the `None` sentinel
raises `TypeError`, a number converts, and a string is parsed by the
float runtime (modelled by the oracle `floatOfStr`; `none` models
`ValueError`). -/
def pyFloat (floatOfStr : String → Option ℚ) : Option HVal → Except String ℚ
  | none => .error "TypeError: float() argument is None"
  | some (.num q) => .ok q
  | some (.str s) =>
    match floatOfStr s with
    | some q => .ok q
    | none => .error "ValueError: could not convert string to float"

/-- Split a character list at every occurrence of `sep`
(Python's `str.split(sep)`). -/
def splitCharList (sep : Char) : List Char → List (List Char)
  | [] => [[]]
  | c :: cs =>
    let r := splitCharList sep cs
    if c == sep then [] :: r
    else
      match r with
      | [] => [[c]]
      | g :: gs => (c :: g) :: gs

/-- Python's `angle.split(':')`. -/
def splitColon (s : String) : List String :=
  (splitCharList ':' s.data).map String.mk

/-- `hms2deg` (`write_pdf.py` lines 313-317): `h, m, s =
angle.split(':')` raises `AttributeError` on the `None` sentinel (and
on a numeric value), `ValueError` when the split does not have exactly
three parts or a part does not parse as a float, and otherwise returns
`(h + m/60 + s/3600) / 24 * 360`. -/
def hms2deg (floatOfStr : String → Option ℚ) : Option HVal → Except String ℚ
  | none => .error "AttributeError: NoneType object has no attribute split"
  | some (.num _) => .error "AttributeError: float object has no attribute split"
  | some (.str s) =>
    match splitColon s with
    | [h, m, sec] =>
      match floatOfStr h, floatOfStr m, floatOfStr sec with
      | some hq, some mq, some sq => .ok ((hq + mq / 60 + sq / 3600) / 24 * 360)
      | _, _, _ => .error "ValueError: could not convert string to float"
    | _ => .error "ValueError: unpack"

/-- Observatory site record built by `location` (`write_pdf.py` lines
321-333). -/
structure Observatory where
  latitude : ℚ
  longitude : ℚ
  elevation : ℚ
deriving DecidableEq, Repr

/-- `location` (`write_pdf.py` lines 321-333): anything other than the
strings `Gemini-North`/`Gemini-South` (including the `None` sentinel
produced for an unreadable `OBSERVAT` field) raises
`SystemExit('Unknown observatory')`. -/
def location : Option HVal → Except String Observatory
  | some (.str "Gemini-North") => .ok ⟨297.35709, -155.46906, 4213⟩
  | some (.str "Gemini-South") => .ok ⟨453.61125, -70.7366933333, 2722⟩
  | _ => .error "Unknown observatory"

/-- The science-target header-consuming slice of `write_pdf.start`
(lines 39-48): `imexam` (including its unprotected `OBJECT` read), then
the keyword arguments of the `PARANGLE` call at lines 45-48 in Python
evaluation order: `float(sci['DEC'])`, `hms2deg(sci['HA'])`,
`location(sci['OBSERVAT'])`, `float(sci['AZIMUTH'])`.  The first
exception aborts the report for this target; `.ok` means this slice
completed (the build continues with further steps not modelled here;
the interleaved telluric `imexam` and the `estimate_snr` calls are
delegated externals assumed to succeed). -/
def reportHeaderStage (floatOfStr : String → Option ℚ) (header : List (String × HVal)) :
    Except String (List (String × Option HVal)) :=
  match imexamStage header with
  | .error e => .error e
  | .ok data =>
    match pyFloat floatOfStr ((data.lookup "DEC").join) with
    | .error e => .error e
    | .ok _ =>
      match hms2deg floatOfStr ((data.lookup "HA").join) with
      | .error e => .error e
      | .ok _ =>
        match location ((data.lookup "OBSERVAT").join) with
        | .error e => .error e
        | .ok _ =>
          match pyFloat floatOfStr ((data.lookup "AZIMUTH").join) with
          | .error e => .error e
          | .ok _ => .ok data

/-- A FITS header with every field `imexam` and the `PARANGLE` argument
chain consume present and well-formed EXCEPT `OBSERVAT`. -/
def headerNoObservat : List (String × HVal) :=
  [("OBJECT", .str "NGC 4736"),
   ("GEMPRGID", .str "GN-2019A-Q-1"),
   ("AIRMASS", .num 1.2),
   ("RA", .num 192.72),
   ("DEC", .num 41.12),
   ("HA", .str "1:0:0"),
   ("AZIMUTH", .num 178.3),
   ("PA", .num 90),
   ("RAWIQ", .str "70-percentile"),
   ("RAWCC", .str "50-percentile"),
   ("RAWWV", .str "Any"),
   ("RAWBG", .str "Any"),
   ("DATE-OBS", .str "2019-05-10")]

/-- A concrete float-parsing oracle sufficient for the `HA` value of
`headerNoObservat`. -/
def floatOracle0 : String → Option ℚ :=
  fun s => if s = "1" then some 1 else if s = "0" then some 0 else none

/-! ## gnirsExtractSpectra1D.py : the peak-matching loop -/

/-- Python's `abs` on a rational value. -/
def pyabs (x : ℚ) : ℚ :=
  if x < 0 then -x else x

/-- One science peak as parsed by `peaksFind`: `some p` for a `center p`
line, `none` for the `'Peak not found'` sentinel string. -/
abbrev Peak := Option ℚ

/-- The comparison loop of `peaksMatch` (`gnirsExtractSpectra1D.py`
lines 463-491), as a function of the per-extension peaks and the derived
`pixeldifference`: builds `peaksMatched` and assigns `reExtract` anew on
every iteration (it is unbound before the first iteration, modelled by
`Option Bool`).  A missing science peak appends `False` and sets
`reExtract = True`; otherwise the peak matches exactly when
`abs(locatedPeak - expectedPeak) < toleranceOffset` with
`expectedPeak = telpeaks[i] + pixeldifference`. -/
def peaksMatchLoop (scipeaks : List Peak) (telpeaks : List ℚ)
    (pixeldifference toleranceOffset : ℚ) : List Bool × Option Bool :=
  go scipeaks telpeaks
where
  go : List Peak → List ℚ → List Bool × Option Bool
  | [], _ => ([], none)
  | _ :: ss, [] =>
    -- `telpeaks[i]` out of range cannot happen for equal-length inputs
    let r := go ss []
    (false :: r.1, some true)
  | sp :: ss, tp :: ts =>
    let expectedPeak := tp + pixeldifference
    let (matchedHere, reExtractHere) :=
      match sp with
      | none => (false, true)
      | some locatedPeak =>
        if pyabs (locatedPeak - expectedPeak) < toleranceOffset then (true, false)
        else (false, true)
    let r := go ss ts
    (matchedHere :: r.1, match r.2 with
                         | none => some reExtractHere
                         | some b => some b)

/-- The aperture center written for extension `i` by
`reExtractSpectra1D` (`gnirsExtractSpectra1D.py` lines 514-518): a
matched order keeps `telpeaks[i]`; an unmatched order gets
`float(telpeaks[i]) + pixeldifference` (the expected peak location). -/
def reExtractNewCenter (matched : Bool) (telpeak pixeldifference : ℚ) : ℚ :=
  if matched then telpeak else telpeak + pixeldifference

/-! ## Python name resolution

`flux_calibrate.start` (telluricapproximate branch), `peaksMatch` and
`reExtractSpectra1D` read names that are bound nowhere.  We model the
relevant straight-line code as a list of statements, each carrying the
names it reads (in Python evaluation order) and the local names it
binds; executing a statement whose first unbound read raises `NameError`
stops the run.  A statement may carry a `marker` recording that the
interesting work (flux-calibrating an order, comparing peaks, invoking
`nsextract` for re-extraction) happened. -/

/-- A straight-line Python statement, abstracted to the names it reads
(in evaluation order), the names it binds on success, and whether it
performs the work the enclosing claim is about. -/
structure NStmt where
  reads : List String
  writes : List String := []
  marker : Bool := false

/-- First name of `reads` that is not bound in `env` (the name whose
lookup raises `NameError`). -/
def firstUnbound (env : List String) (reads : List String) : Option String :=
  reads.find? (fun n => !(env.contains n))

/-- Run a statement list in environment `env`.  Returns the name of the
first `NameError` (or `none` if the run completes) together with whether
any `marker` statement was executed before the error. -/
def runNames (env : List String) : List NStmt → Option String × Bool
  | [] => (none, false)
  | s :: rest =>
    match firstUnbound env s.reads with
    | some n => (some n, false)
    | none =>
      ((runNames (env ++ s.writes) rest).1,
       s.marker || (runNames (env ++ s.writes) rest).2)

/-- Repeat a loop body `n` times (the unrolling of a `for` loop over
`range(n)` whose body neither breaks nor modifies the loop bounds). -/
def unroll (n : Nat) (body : List NStmt) : List NStmt :=
  match n with
  | 0 => []
  | k + 1 => body ++ unroll k body

/-- Python builtins referenced by the modelled statements. -/
def pythonBuiltins : List String :=
  ["float", "int", "str", "range", "len", "abs", "open", "print", "isinstance"]

/-! ### flux_calibrate.py name environment -/

/-- Module-level bindings of `flux_calibrate.py`: its imports (lines
3-11) and its three top-level functions. -/
def fluxCalibrateModuleNames : List String :=
  ["fits", "ConfigParser", "glob", "header", "log", "iraf", "obslog", "os", "utils",
   "start", "float_from_singleElementList", "fluxcalib_units_in_headers"]

/-- Local names of `flux_calibrate.start` bound on every path that
reaches the unconditional pause at line 134 (the parameter, and the
assignments of lines 19-116). -/
def fluxCalibrateStartLocals : List String :=
  ["configfile", "logger", "path", "us_clobber", "config", "manualMode", "overwrite",
   "extractFullSlit", "extractStepwise", "extractStepSize", "combinedsrc", "combinedsky",
   "extractRegularPrefix", "extractFullSlitPrefix", "extractStepwisePrefix", "hLinePrefix",
   "dividedTelContinuumPrefix", "telluricPrefix", "bb_unscaled", "bb_scaled",
   "fluxCalibPrefix", "fluxCalibrationMethod", "scipath", "stdpath", "orders", "sciroot",
   "stdroot", "scifiles", "stdfiles", "std_obslog", "firstfile", "std_name", "std_pars",
   "sci_exptime", "std_exptime"]

/-- Environment in force at `flux_calibrate.py` line 134. -/
def fluxCalibrateEnv : List String :=
  pythonBuiltins ++ fluxCalibrateModuleNames ++ fluxCalibrateStartLocals

/-- `flux_calibrate.start` from the unconditional
`utils.pause(True, 'STOP HERE ...')` at line 134 through the
`telluricapproximate` branch (lines 134-162): the pause, the method
dispatch, the pause at line 150, `stdTemperature` (line 152), the
`sciExptime`/`stdExptime` reads (lines 155-156, reading the unbound
`sci_header_info`, `sci_telluricCorrected`, `tel_header_info`,
`tel_dividedContinuum`), the `zeroMagnitudeFluxes` table (lines
158-160), and finally the per-order flux-calibration loop (lines
162-369, marker). -/
def telluricApproximateStmts : List NStmt :=
  [ { reads := ["utils"] },
    { reads := ["fluxCalibrationMethod"] },
    { reads := ["utils"] },
    { reads := ["std_pars"], writes := ["stdTemperature"] },
    { reads := ["sci_header_info", "os", "sci_telluricCorrected"], writes := ["sciExptime"] },
    { reads := ["tel_header_info", "os", "tel_dividedContinuum"], writes := ["stdExptime"] },
    { reads := ["config", "int"], writes := ["zeroMagnitudeFluxes", "order", "zeroFlux"] },
    { reads := ["range", "len", "orders", "os", "sci_telluricCorrected", "utils",
                "fluxCalibPrefix", "glob", "bb_unscaled", "bb_scaled", "overwrite",
                "logger", "stdMagnitudes", "float", "zeroMagnitudeFluxes", "stdExptime",
                "sciExptime", "stdTemperature", "iraf", "str",
                "float_from_singleElementList", "fluxcalib_units_in_headers",
                "extractFullSlit", "extractStepwise"],
      writes := ["i", "fluxCalibrationInput", "sci_telluricCorrected_base_nofits",
                 "fluxCalibrationOutput_SEF", "fluxCalibrationOutput_MEF", "oldfiles",
                 "flambda", "absolute_fluxcalib", "waveReferencePixel",
                 "waveReferenceValue", "waveDelt", "waveStart", "ndimensions", "waveEnd",
                 "blackbodyScaleFactor"],
      marker := true } ]

/-- The names the claim lists as read-but-undefined in
`flux_calibrate.py`. -/
def fluxCalibrateUnboundNames : List String :=
  ["sci_header_info", "tel_header_info", "sci_telluricCorrected",
   "tel_dividedContinuum", "stdMagnitudes"]

/-! ### gnirsExtractSpectra1D.py name environment -/

/-- Module-level bindings of `gnirsExtractSpectra1D.py`: its imports
(lines 29-31) and its five (uncommented) top-level functions. -/
def extractModuleNames : List String :=
  ["log", "os", "glob", "ConfigParser", "fits", "iraf",
   "start", "nofits", "extractSpectra1D", "peaksFind", "peaksMatch", "reExtractSpectra1D"]

/-- Environment inside `peaksMatch` after the `logger` assignment: its
six parameters plus `logger`. -/
def peaksMatchEnv : List String :=
  pythonBuiltins ++ extractModuleNames ++
  ["obspath", "telpath", "combinedimage", "scipeaks", "telpeaks", "toleranceOffset",
   "logger"]

/-- Body of `peaksMatch` after the `logger` assignment
(`gnirsExtractSpectra1D.py` lines 452-491): the Q-offset header reads
(reading the unbound `sciacq`, `scisrccomb`, `telacq`, `telsrccomb`),
the `pixeldifference` computation, and the peak-comparison loop
(marker). -/
def peaksMatchStmts : List NStmt :=
  [ { reads := ["fits", "sciacq"], writes := ["sciacqHeader"] },
    { reads := ["fits", "scisrccomb"], writes := ["scisrccombHeader"] },
    { reads := ["abs", "sciacqHeader", "scisrccombHeader"], writes := ["scisrccombQoffset"] },
    { reads := ["fits", "telacq"], writes := ["telacqHeader"] },
    { reads := ["fits", "telsrccomb"], writes := ["telsrccombHeader"] },
    { reads := ["abs", "telacqHeader", "telsrccombHeader"], writes := ["telsrccombQoffset"] },
    { reads := ["scisrccombHeader"], writes := ["pixelscale"] },
    { reads := ["scisrccombQoffset", "telsrccombQoffset", "pixelscale"],
      writes := ["pixeldifference"] },
    { reads := [], writes := ["peaksMatched"] },
    { reads := ["range", "len", "scipeaks", "telpeaks", "pixeldifference", "float",
                "logger", "peaksMatched", "abs", "toleranceOffset"],
      writes := ["i", "expectedPeak", "locatedPeak", "reExtract"],
      marker := true },
    { reads := ["peaksMatched", "reExtract"] } ]

/-- Environment inside `reExtractSpectra1D` after the `logger`
assignment: its fifteen parameters plus `logger`. -/
def reExtractEnv : List String :=
  pythonBuiltins ++ extractModuleNames ++
  ["scidatabasepath", "teldatabasepath", "telpath", "scitelPeaksMatched",
   "sci_combinedsrc", "tel_combinedsrc", "newtelapfilePrefix", "orders",
   "nsextractInter", "extractRegularPrefix", "databaseDir", "useApall", "subtractBkg",
   "apertureTracingColumns", "extractApertureRadius", "logger"]

/-- One iteration of the database-rewriting loop of `reExtractSpectra1D`
(`gnirsExtractSpectra1D.py` lines 503-521): reads the unbound
`peaks_flag` (and, in its branches, the unbound `telpeaks` and
`pixeldifference`). -/
def reExtractLoopBody : List NStmt :=
  [ { reads := [], writes := ["i"] },
    { reads := ["i"], writes := ["extension"] },
    { reads := ["scidatabasepath", "sci_combinedsrc", "str", "extension"],
      writes := ["oldsciapfile"] },
    { reads := ["os", "oldsciapfile"] },
    { reads := ["open", "teldatabasepath", "tel_combinedsrc", "str", "extension"],
      writes := ["oldtelapfile"] },
    { reads := ["open", "teldatabasepath", "newtelapfilePrefix", "tel_combinedsrc", "str",
                "extension"],
      writes := ["newtelapfile"] },
    { reads := ["peaks_flag", "i"] },
    { reads := ["oldtelapfile", "telpeaks", "i", "str", "float", "pixeldifference",
                "tel_combinedsrc", "newtelapfilePrefix"],
      writes := ["replacetelapfile"] },
    { reads := ["newtelapfile", "replacetelapfile"] },
    { reads := ["oldtelapfile"] },
    { reads := ["newtelapfile"] } ]

/-- The `for i in range(len(orders))` loop header of
`reExtractSpectra1D` (line 503). -/
def reExtractHeaderStmt : NStmt :=
  { reads := ["range", "len", "orders"] }

/-- The statements of `reExtractSpectra1D` after the rewriting loop
(`gnirsExtractSpectra1D.py` lines 523-553): `shutil.copy` (reading the
unbound `shutil`), `os.remove`, the forced `iraf.nsextract`
re-extraction (marker) and the extension-count check. -/
def reExtractPostStmts : List NStmt :=
  [ { reads := ["shutil", "telpath", "tel_combinedsrc", "newtelapfilePrefix"] },
    { reads := ["os", "sci_combinedsrc"] },
    { reads := ["iraf", "sci_combinedsrc", "extractRegularPrefix",
                "apertureTracingColumns", "str", "extractApertureRadius", "subtractBkg",
                "nsextractInter", "useApall", "telpath", "newtelapfilePrefix",
                "tel_combinedsrc", "logger"],
      marker := true },
    { reads := ["iraf", "sci_combinedsrc", "logger"],
      writes := ["extractedSpectraExtensions"] },
    { reads := ["len", "extractedSpectraExtensions", "orders", "logger"] } ]

/-- `reExtractSpectra1D` after the `logger` assignment, for `n` spectral
orders (`gnirsExtractSpectra1D.py` lines 502-553): the loop header, the
rewriting loop unrolled `n` times, then the post-loop statements. -/
def reExtractStmts (n : Nat) : List NStmt :=
  reExtractHeaderStmt :: (unroll n reExtractLoopBody ++ reExtractPostStmts)

/-! ## gnirsBaselineCalibration.py : stage runner -/

/-- The start/stop validity test of the interactive check at
`gnirsBaselineCalibration.py` line 252:
`valindex > stop or valindex < 1 or stop > 5`. -/
def invalidRange (a z : ℤ) : Bool :=
  decide (a > z) || decide (a < 1) || decide (z > 5)

/-- The interactive validation loop (`gnirsBaselineCalibration.py` lines
251-263): while the range is invalid, read a new (start, stop) pair from
the user; `none` models a user who never supplies a valid pair (the loop
never exits and no step runs). -/
def validateRange (prompts : List (ℤ × ℤ)) (a z : ℤ) : Option (ℤ × ℤ) :=
  if invalidRange a z then
    match prompts with
    | [] => none
    | (a', z') :: rest => validateRange rest a' z'
  else
    some (a, z)

/-- The five baseline-calibration steps. -/
inductive CalStep where
  | clean
  | prepare
  | flat
  | sdist
  | wavecal
deriving DecidableEq, Repr

/-- The step dispatch of the `while valindex <= stop` loop
(`gnirsBaselineCalibration.py` lines 272-482): step indices 1-5 select a
step; any other index hits the fatal `else` branch (`none`). -/
def stepOfIndex (v : ℤ) : Option CalStep :=
  if v = 1 then some .clean
  else if v = 2 then some .prepare
  else if v = 3 then some .flat
  else if v = 4 then some .sdist
  else if v = 5 then some .wavecal
  else none

/-- The successive values of `valindex` in the
`while valindex <= stop: ...; valindex += 1` loop started at `a` with
bound `z`. -/
def loopIndices (a z : ℤ) : List ℤ :=
  (List.range (z + 1 - a).toNat).map (fun (k : ℕ) => a + (k : ℤ))

/-- Dispatch every loop index to its step; `none` if any index hits the
fatal unknown-step branch. -/
def stepsOfIndices : List ℤ → Option (List (ℤ × CalStep))
  | [] => some []
  | v :: rest =>
    match stepOfIndex v, stepsOfIndices rest with
    | some s, some l => some ((v, s) :: l)
    | _, _ => none

/-- Outcome of the per-directory stage runner. -/
inductive BaselineOutcome where
  | stuckPrompting
  | fatalUnknownStep
  | ran (steps : List (ℤ × CalStep))
deriving DecidableEq, Repr

/-- The baseline-calibration stage runner for one calibration directory
(`gnirsBaselineCalibration.py` lines 251-484): validate the configured
start/stop interactively, then run the step loop. -/
def baselineStage (cfgStart cfgStop : ℤ) (prompts : List (ℤ × ℤ)) : BaselineOutcome :=
  match validateRange prompts cfgStart cfgStop with
  | none => .stuckPrompting
  | some (a, z) =>
    match stepsOfIndices (loopIndices a z) with
    | none => .fatalUnknownStep
    | some steps => .ran steps

/-! ## Theorems -/

/-- C1: in the flux-calibration stage, a supplied standard magnitude
gives `flambda = 10^(-mag/2.5) * zeroMagnitudeFlux * (stdExptime /
sciExptime)` with the output header tagged `erg/cm^2/s/A`; an empty
magnitude gives `flambda = stdExptime / sciExptime` exactly (60 for
300/5) with the header tagged `Flambda, relative`. -/
theorem flux_calibrate_flambda_claim (tenPow : ℚ → ℚ) (mag zf se sce : ℚ) :
    flambda tenPow (some mag) zf se sce
      = (tenPow (-mag / 2.5) * zf * (se / sce), true)
    ∧ flambda tenPow none zf se sce = (se / sce, false)
    ∧ fluxcalib_units_in_headers true = "erg/cm^2/s/A"
    ∧ fluxcalib_units_in_headers false = "Flambda, relative"
    ∧ (flambda tenPow none zf 300 5).1 = 60 := by
  refine ⟨rfl, ?_, rfl, rfl, ?_⟩
  · simp [flambda]
  · norm_num [flambda]

/-- C2: on the `telluricapproximate` path of `flux_calibrate.start`,
execution raises `NameError` on `sci_header_info` before the per-order
flux-calibration loop runs, and the five names the branch reads are
bound nowhere (not builtins, not module bindings, not locals); the
unconditional `STOP HERE` pause precedes the branch. -/
theorem flux_calibrate_unbound_names_claim :
    runNames fluxCalibrateEnv telluricApproximateStmts = (some "sci_header_info", false)
    ∧ fluxCalibrateUnboundNames.all (fun n => !(fluxCalibrateEnv.contains n)) = true
    ∧ telluricApproximateStmts.head?.map NStmt.reads = some ["utils"] :=
  ⟨rfl, rfl, rfl⟩

/-- C3 (failing input): on two extensions with expected offset 2 px and
tolerance 5 px, a first-order located peak of 10 px mismatches (the
match test is exactly `abs difference < tolerance`) yet `reExtract`
ends up `False` because the flag is overwritten by the matching final
order - no re-extraction is forced despite a mismatched order.  On a
single order the spec examples hold: located 4 px matches with no
re-extraction; located 10 px mismatches, forcing re-extraction with
center `telpeak + pixeldifference = 2` px. -/
theorem peaksMatch_reextract_claim :
    (peaksMatchLoop [some 10, some 4] [0, 2] 2 5).1 = [false, true]
    ∧ (peaksMatchLoop [some 10, some 4] [0, 2] 2 5).2 = some false
    ∧ peaksMatchLoop [some 4] [0] 2 5 = ([true], some false)
    ∧ peaksMatchLoop [some 10] [0] 2 5 = ([false], some true)
    ∧ reExtractNewCenter false 0 2 = 2 := by
  refine ⟨?_, ?_, ?_, ?_, by norm_num [reExtractNewCenter]⟩ <;>
    norm_num [peaksMatchLoop, peaksMatchLoop.go, pyabs]

/-- C5: exposure-time pruning of `checklist`.  On [5,5,5,300] the list
is backed up and rewritten to the three majority files, as claimed; but
on [2,2,2,7,7,9,9], whose most common exposure time (2, occurring 3
times) is unique, the run terminates fatally instead of pruning,
because `npeak = freq.values().count(val)` counts the exposure-time
value among the frequencies (here the frequency 2 occurs twice). -/
theorem checklist_unique_majority_claim :
    checklistExptimes [("n1", 5), ("n2", 5), ("n3", 5), ("n4", 300)]
      = .pruned true ["n1", "n2", "n3"]
    ∧ checklistExptimes
        [("f1", 2), ("f2", 2), ("f3", 2), ("f4", 7), ("f5", 7), ("f6", 9), ("f7", 9)]
      = .fatalTie 2 2
    ∧ mostCommonExptime [2, 2, 2, 7, 7, 9, 9] = (2, 3)
    ∧ ((uniqueKeys [2, 2, 2, 7, 7, 9, 9]).countP
        (fun k => ([2, 2, 2, 7, 7, 9, 9] : List ℚ).count k == 3)) = 1 := by
  refine ⟨?_, ?_, ?_, ?_⟩ <;> decide

/-- C6: on a manifest whose exposure times [5,5,300,300] have two
distinct values tied for the highest frequency, `checklist` does NOT
terminate: `npeak = freq.values().count(val)` is 0 for either tie
candidate (no frequency equals the exposure-time values 5 or 300), so
the tie check never fires and the list is pruned to an arbitrarily
chosen tie value. -/
theorem checklist_exptime_tie_claim :
    checklistExptimes [("t1", 5), ("t2", 5), ("t3", 300), ("t4", 300)]
      = .pruned true ["t1", "t2"]
    ∧ ([5, 5, 300, 300] : List ℚ).count 5 = 2
    ∧ ([5, 5, 300, 300] : List ℚ).count 300 = 2
    ∧ (5 : ℚ) ≠ 300
    ∧ npeakOf [5, 5, 300, 300] 5 = 0
    ∧ npeakOf [5, 5, 300, 300] 300 = 0 := by
  refine ⟨?_, ?_, ?_, ?_, ?_, ?_⟩ <;> decide

/-- C7: the per-order old-output decision of `flux_calibrate.start`
tests only the overwrite flag, never whether outputs exist: with
overwrite set the order is recomputed (removing whatever old outputs
were globbed), and with overwrite unset the order is always skipped -
in particular an order with NO pre-existing outputs is skipped rather
than computed. -/
theorem flux_calibrate_order_overwrite_claim :
    orderCalibAction [] false = .skip
    ∧ orderCalibAction [] true = .recompute []
    ∧ orderCalibAction ["bb_unscaled3.fits"] true = .recompute ["bb_unscaled3.fits"]
    ∧ orderCalibAction ["bb_unscaled3.fits"] false = .skip
    ∧ ∀ oldfiles : List String, orderCalibAction oldfiles false = .skip :=
  ⟨rfl, rfl, rfl, rfl, fun _ => rfl⟩

/-- C9 (counterexample): with a FITS header holding every consumed
field except `OBSERVAT` (so `imexam` completes - `OBJECT` is present -
and `float(sci['DEC'])` and `hms2deg(sci['HA'])` both succeed, the only
degraded field being `OBSERVAT`), the reading loop degrades `OBSERVAT`
to the `None` sentinel with a warning, but the report then aborts: the
first failing consumer is `location`, which receives the sentinel and
raises `SystemExit('Unknown observatory')`, so the report is NOT
produced - refuting "never aborts the report". -/
theorem write_pdf_header_abort_counterexample :
    (imexamHeaderData headerNoObservat).lookup "OBSERVAT" = some none
    ∧ imexamWarnings headerNoObservat = ["OBSERVAT"]
    ∧ imexamStage headerNoObservat
      = .ok (imexamHeaderData headerNoObservat ++ [("OBJECT", some (.str "NGC4736"))])
    ∧ reportHeaderStage floatOracle0 headerNoObservat = .error "Unknown observatory" :=
  ⟨rfl, rfl, rfl, rfl⟩

/-- C10: `write_pdf.start` skips a science directory only when its raw
config value string is empty; the string `'False'` is truthy, so a
directory explicitly flagged False (which `getboolean`, used by every
other stage, parses as `False`) still gets a PDF rendered. -/
theorem write_pdf_enabled_filter_claim :
    shouldProcess "False" = true
    ∧ configGetboolean "False" = some false
    ∧ reportedDirs [("sci1", "False"), ("sci2", "True")] = ["sci1", "sci2"]
    ∧ shouldProcess "" = false := by
  refine ⟨rfl, ?_, rfl, rfl⟩
  decide

/-- A statement-list run that raises `NameError` is unaffected by any
statements appended after it. -/
theorem runNames_append_of_error {e : String} :
    ∀ (xs : List NStmt) (env : List String) (b : Bool) (ys : List NStmt),
      runNames env xs = (some e, b) → runNames env (xs ++ ys) = (some e, b) := by
  intro xs
  induction xs with
  | nil =>
    intro env b ys h
    simp [runNames] at h
  | cons s rest ih =>
    intro env b ys h
    rw [List.cons_append]
    simp only [runNames] at h ⊢
    cases hf : firstUnbound env s.reads with
    | some n =>
      simp only [hf] at h ⊢
      exact h
    | none =>
      simp only [hf] at h ⊢
      rw [Prod.mk.injEq] at h
      obtain ⟨h1, h2⟩ := h
      have hrest : runNames (env ++ s.writes) rest
          = (some e, (runNames (env ++ s.writes) rest).2) := Prod.ext h1 rfl
      rw [ih (env ++ s.writes) ((runNames (env ++ s.writes) rest).2) ys hrest]
      exact Prod.ext rfl h2

/-- C4: `peaksMatch` raises `NameError` on `sciacq` before any peak is
compared, and `reExtractSpectra1D` raises `NameError` on `peaks_flag`
(or on `shutil` when there are no orders) before `nsextract` is ever
invoked; the names `sciacq`, `scisrccomb`, `telacq`, `telsrccomb`,
`peaks_flag`, `telpeaks`, `pixeldifference` and `shutil` are bound
nowhere in scope, so the peak-matching sub-contract can never complete
on any input. -/
theorem extract_unbound_names_claim :
    runNames peaksMatchEnv peaksMatchStmts = (some "sciacq", false)
    ∧ (∀ n : Nat, runNames reExtractEnv (reExtractStmts n)
        = (some (if n = 0 then "shutil" else "peaks_flag"), false))
    ∧ ["sciacq", "scisrccomb", "telacq", "telsrccomb"].all
        (fun m => !(peaksMatchEnv.contains m)) = true
    ∧ ["peaks_flag", "telpeaks", "pixeldifference", "shutil"].all
        (fun m => !(reExtractEnv.contains m)) = true := by
  refine ⟨rfl, ?_, rfl, rfl⟩
  intro n
  cases n with
  | zero => rfl
  | succ m =>
    have hsplit : reExtractStmts (m + 1)
        = (reExtractHeaderStmt :: reExtractLoopBody)
          ++ (unroll m reExtractLoopBody ++ reExtractPostStmts) := by
      simp [reExtractStmts, unroll, List.append_assoc]
    rw [hsplit]
    have hpre : runNames reExtractEnv (reExtractHeaderStmt :: reExtractLoopBody)
        = (some "peaks_flag", false) := rfl
    simpa using runNames_append_of_error _ reExtractEnv false _ hpre

/-- The interactive validation loop only ever returns a valid
start/stop pair. -/
theorem validateRange_valid :
    ∀ (prompts : List (ℤ × ℤ)) (a0 z0 a z : ℤ),
      validateRange prompts a0 z0 = some (a, z) → invalidRange a z = false := by
  intro prompts
  induction prompts with
  | nil =>
    intro a0 z0 a z h
    unfold validateRange at h
    by_cases hi : invalidRange a0 z0 = true
    · simp [hi] at h
    · simp [hi] at h
      rw [← h.1, ← h.2]
      exact Bool.eq_false_iff.mpr hi
  | cons p rest ih =>
    intro a0 z0 a z h
    obtain ⟨pa, pz⟩ := p
    unfold validateRange at h
    by_cases hi : invalidRange a0 z0 = true
    · simp [hi] at h
      exact ih pa pz a z h
    · simp [hi] at h
      rw [← h.1, ← h.2]
      exact Bool.eq_false_iff.mpr hi

/-- The validity test unfolded. -/
theorem invalidRange_false_iff (a z : ℤ) :
    invalidRange a z = false ↔ 1 ≤ a ∧ a ≤ z ∧ z ≤ 5 := by
  unfold invalidRange
  simp only [Bool.or_eq_false_iff, decide_eq_false_iff_not]
  omega

/-- Membership in the loop-index list. -/
theorem mem_loopIndices {a z v : ℤ} (haz : a ≤ z) :
    v ∈ loopIndices a z ↔ a ≤ v ∧ v ≤ z := by
  unfold loopIndices
  simp only [List.mem_map, List.mem_range]
  constructor
  · rintro ⟨k, hk, rfl⟩
    omega
  · intro hv
    refine ⟨(v - a).toNat, ?_, ?_⟩ <;> omega

/-- The loop indices are distinct. -/
theorem loopIndices_nodup (a z : ℤ) : (loopIndices a z).Nodup := by
  unfold loopIndices
  refine (List.nodup_range _).map ?_
  intro k1 k2 h
  have h2 : a + (k1 : ℤ) = a + (k2 : ℤ) := h
  omega

/-- The loop indices are strictly increasing. -/
theorem loopIndices_pairwise (a z : ℤ) : (loopIndices a z).Pairwise (· < ·) := by
  unfold loopIndices
  refine List.Pairwise.map _ (fun k1 k2 h => ?_) (List.pairwise_lt_range _)
  show a + (k1 : ℤ) < a + (k2 : ℤ)
  omega

/-- Each in-range index occurs exactly once in the loop-index list. -/
theorem count_loopIndices (a z : ℤ) (haz : a ≤ z) (v : ℤ) :
    (loopIndices a z).count v = if a ≤ v ∧ v ≤ z then 1 else 0 := by
  by_cases h : a ≤ v ∧ v ≤ z
  · rw [if_pos h]
    exact List.count_eq_one_of_mem (loopIndices_nodup a z) ((mem_loopIndices haz).mpr h)
  · rw [if_neg h]
    exact List.count_eq_zero_of_not_mem fun hm => h ((mem_loopIndices haz).mp hm)

/-- Indices 1..5 all dispatch to a real step, so the step loop never
hits the fatal unknown-step branch. -/
theorem stepsOfIndices_some :
    ∀ l : List ℤ, (∀ v ∈ l, 1 ≤ v ∧ v ≤ 5) →
      ∃ steps, stepsOfIndices l = some steps ∧ steps.map Prod.fst = l
        ∧ ∀ p ∈ steps, stepOfIndex p.1 = some p.2 := by
  intro l
  induction l with
  | nil =>
    intro _
    exact ⟨[], rfl, rfl, by simp⟩
  | cons v rest ih =>
    intro h
    obtain ⟨steps, hs, hmap, hall⟩ := ih fun w hw => h w (List.mem_cons_of_mem v hw)
    obtain ⟨hv1, hv2⟩ := h v (List.mem_cons_self v rest)
    obtain ⟨s, hstep⟩ : ∃ s, stepOfIndex v = some s := by
      interval_cases v <;> exact ⟨_, rfl⟩
    refine ⟨(v, s) :: steps, ?_, ?_, ?_⟩
    · simp [stepsOfIndices, hstep, hs]
    · simp [hmap]
    · intro p hp
      rcases List.mem_cons.mp hp with hp | hp
      · rw [hp]
        exact hstep
      · exact hall p hp

/-- C8: once the interactive check accepts a (start, stop) range, the
baseline-calibration runner executes the steps as a strictly increasing
sequence, once each, from start through stop, with each index 1..5
dispatching to its step (clean, prepare, flat, spatial-distortion,
wavelength-calibration) and the fatal unknown-step branch unreachable;
an invalid configured range is re-prompted (`validateRange`) before any
step runs. -/
theorem gnirsBaselineCalibration_steps_claim (cfgStart cfgStop a z : ℤ)
    (prompts : List (ℤ × ℤ))
    (hv : validateRange prompts cfgStart cfgStop = some (a, z)) :
    invalidRange a z = false ∧
    ∃ steps, baselineStage cfgStart cfgStop prompts = .ran steps
      ∧ steps.map Prod.fst = loopIndices a z
      ∧ (steps.map Prod.fst).Pairwise (· < ·)
      ∧ (∀ p ∈ steps, stepOfIndex p.1 = some p.2)
      ∧ ∀ v : ℤ, (steps.map Prod.fst).count v = if a ≤ v ∧ v ≤ z then 1 else 0 := by
  have hval := validateRange_valid prompts cfgStart cfgStop a z hv
  obtain ⟨h1, h2, h3⟩ := (invalidRange_false_iff a z).mp hval
  have hbound : ∀ v ∈ loopIndices a z, 1 ≤ v ∧ v ≤ 5 := by
    intro v hvv
    have := (mem_loopIndices h2).mp hvv
    omega
  obtain ⟨steps, hs, hmap, hall⟩ := stepsOfIndices_some _ hbound
  refine ⟨hval, steps, ?_, hmap, ?_, hall, ?_⟩
  · simp only [baselineStage, hv, hs]
  · rw [hmap]
    exact loopIndices_pairwise a z
  · intro v
    rw [hmap]
    exact count_loopIndices a z h2 v

/-- Witness for C8: configured range (0, 7) is invalid; the prompts
supply (6, 2) (still invalid) and then (1, 5), which is accepted, and
the runner executes steps 1 through 5. -/
theorem gnirsBaselineCalibration_steps_witness :
    validateRange [(6, 2), (1, 5)] 0 7 = some (1, 5)
    ∧ (invalidRange 1 5 = false ∧
       ∃ steps, baselineStage 0 7 [(6, 2), (1, 5)] = .ran steps
        ∧ steps.map Prod.fst = loopIndices 1 5
        ∧ (steps.map Prod.fst).Pairwise (· < ·)
        ∧ (∀ p ∈ steps, stepOfIndex p.1 = some p.2)
        ∧ ∀ v : ℤ, (steps.map Prod.fst).count v = if 1 ≤ v ∧ v ≤ 5 then 1 else 0) :=
  ⟨rfl, gnirsBaselineCalibration_steps_claim 0 7 1 5 [(6, 2), (1, 5)] rfl⟩

/-- Looking up a key of a key-tagged map hits the tagged value. -/
theorem lookup_map_keys {α : Type} (f : String → α) :
    ∀ (keys : List String) (k : String), k ∈ keys →
      (keys.map (fun x => (x, f x))).lookup k = some (f k) := by
  intro keys
  induction keys with
  | nil =>
    intro k hk
    simp at hk
  | cons a as ih =>
    intro k hk
    by_cases hka : k = a
    · subst hka
      simp [List.lookup]
    · have hmem : k ∈ as := by
        rcases List.mem_cons.mp hk with h | h
        · exact absurd h hka
        · exact h
      have hba : (k == a) = false := beq_eq_false_iff_ne.mpr hka
      simp [List.lookup, hba, ih k hmem]

/-- C9 (amended): within the header-reading loop of `imexam`, a failed
read of a required header field degrades that field to the `None`
sentinel and logs a warning without aborting the loop; the report as a
whole, however, is not guaranteed (see the counterexample: a sentinel
`OBSERVAT` aborts downstream in `location`). -/
theorem write_pdf_header_degrade_amended (header : List (String × HVal)) (k : String)
    (h1 : k ∈ requiredHeaderKeys) (h2 : header.lookup k = none) :
    (imexamHeaderData header).lookup k = some none ∧ k ∈ imexamWarnings header := by
  constructor
  · have h3 : imexamHeaderData header
        = requiredHeaderKeys.map
            (fun x => (x, (header.lookup x).map stripIfStr)) := rfl
    rw [h3, lookup_map_keys _ requiredHeaderKeys k h1, h2]
    rfl
  · have h4 : imexamWarnings header
        = requiredHeaderKeys.filter (fun x => (header.lookup x).isNone) := rfl
    rw [h4]
    refine List.mem_filter.mpr ⟨h1, ?_⟩
    rw [h2]
    rfl

/-- Witness for C9: a header holding only `AIRMASS` leaves the required
key `DEC` unreadable; the loop degrades `DEC` to the sentinel and logs
a warning. -/
theorem write_pdf_header_degrade_witness :
    ("DEC" ∈ requiredHeaderKeys
      ∧ ([("AIRMASS", HVal.num 1.2)] : List (String × HVal)).lookup "DEC" = none)
    ∧ ((imexamHeaderData [("AIRMASS", HVal.num 1.2)]).lookup "DEC" = some none
      ∧ "DEC" ∈ imexamWarnings [("AIRMASS", HVal.num 1.2)]) :=
  ⟨⟨by decide, rfl⟩,
   write_pdf_header_degrade_amended [("AIRMASS", HVal.num 1.2)] "DEC" (by decide) rfl⟩

end GnirsPipeline
